import Mathlib

/-
Verification of the runtime type-hint validator (python-typechecked).

The development shallowly embeds the control flow of `_check_generic`
(src/typechecked/_generic.py) as a pure function over an environment that
records the outcome of every dynamic query the Python code performs
(cache probe, immutability classification, isinstance / issubclass results,
attribute presence, and the results of recursive element checks).  The
instrumented output records the cache writes, the structural matchers that
ran, and the recursive element checks performed, so that the cache-safety,
dispatch and fallback properties can be stated and proved.

Components of the repository that are referenced by `_generic.py` but whose
source is not part of the checked tree (the structural matchers, the cache
write primitive, the recursive entry point) are modelled from the spec and
marked as such in their doc comments.
-/

namespace Typechecked

/-- Result pair returned by every level of the recursive check.
Modelled from the spec: CheckResult pairs (is_valid, is_immutable)
(_check_result.py is not under src/; the shape is fixed by spec section 3
and by every use in _generic.py). -/
structure CheckResult where
  valid : Bool
  immutable : Bool
deriving DecidableEq, Repr

/-- Constant IS_VALID from _constants.py (used as the literal True verdict). -/
def IS_VALID : Bool := true

/-- Constant NOT_VALID from _constants.py. -/
def NOT_VALID : Bool := false

/-- Constant IS_IMMUTABLE from _constants.py. -/
def IS_IMMUTABLE : Bool := true

/-- Constant NOT_IMMUTABLE from _constants.py. -/
def NOT_IMMUTABLE : Bool := false

/-- Machine-readable error tags of the typed error hierarchy.
TYPE_HINT_MISMATCH, NON_RUNTIME_CHECKABLE_PROTOCOL and VALIDATION_FAILED are
the tags used by _generic.py.  INVALID_PSEUDO_ORIGIN is modelled from the
spec: section 6 lists a dedicated tag category for invalid pseudo-origin
usage (_error_tags.py is not under src/). -/
inductive ErrTag where
  | TYPE_HINT_MISMATCH
  | NON_RUNTIME_CHECKABLE_PROTOCOL
  | VALIDATION_FAILED
  | INVALID_PSEUDO_ORIGIN
deriving DecidableEq, Repr

/-- Errors that can escape one call of _check_generic: a typed
TypeCheckedTypeError carrying a tag, or a raw platform error. -/
inductive RunError where
  | typed (tag : ErrTag)
  | rawTypeError
  | rawIndexError
deriving DecidableEq, Repr

/-- The six structural matchers of _collections_abc.py, in the order of the
dispatch chain of _generic.py lines 168-185. -/
inductive Matcher where
  | mapping
  | set
  | sequence
  | collection
  | iterable
  | callable
deriving DecidableEq, Repr

/-- Results of the six issubclass probes the dispatcher performs against the
collections.abc classes (Mapping, Set, Sequence, Collection, Iterable,
Callable). -/
structure OriginFlags where
  isMapping : Bool
  isSet : Bool
  isSequence : Bool
  isCollection : Bool
  isIterable : Bool
  isCallable : Bool
deriving DecidableEq, Repr

/-- Subclass facts of the collections.abc hierarchy: Mapping, Set and
Sequence each extend Collection, and Collection extends Iterable.  Any
origin flags produced by real issubclass calls satisfy this. -/
def OriginFlags.coherent (f : OriginFlags) : Prop :=
  (f.isMapping = true → f.isCollection = true) ∧
  (f.isSet = true → f.isCollection = true) ∧
  (f.isSequence = true → f.isCollection = true) ∧
  (f.isCollection = true → f.isIterable = true)

instance (f : OriginFlags) : Decidable f.coherent := by
  unfold OriginFlags.coherent
  infer_instance

/-- Dynamic facts about the resolved origin of the hint, as queried by
_generic.py: the issubclass probes, whether the origin is one of the
typing-only pseudo-origin markers (Required, NotRequired, ReadOnly, Never),
and the behavior of isinstance(obj, origin). -/
structure GOrigin where
  flags : OriginFlags
  isPseudo : Bool
  isinstanceRaises : Bool
  isinstanceHolds : Bool
  issubclassRaises : Bool
deriving Repr

/-- Environment of one call of _check_generic: the outcome of every dynamic
query the function performs against the object, the type hint, the options
and the cache.  Function-valued fields give the result each recursive
sub-check or structural matcher would produce if invoked; the spec contract
for matchers (their immutable flag is the conjunction of the object's own
classification and the inspected elements') is stated as a hypothesis where
a claim needs it, with matcherElemImm recording the element conjunction. -/
structure Env where
  cachedResult : Option Bool
  objIsImmutable : Bool
  raiseOnError : Bool
  nonRuntimeProtocol : Bool
  origin : Option GOrigin
  argsLen : Nat
  hintIsType : Bool
  hintFlags : OriginFlags
  hintIsinstanceRaises : Bool
  hintIsinstanceHolds : Bool
  noncachable : Bool
  matcherResult : Matcher → CheckResult
  matcherElemImm : Matcher → Bool
  hasOrigClass : Bool
  origClassChecks : List CheckResult
  typeOriginMatches : Bool
  typeArgsChecks : Option (List CheckResult)
  objHasIter : Bool
  itemChecks : List CheckResult

/-- Origin synthesized from a bare class hint (_generic.py lines 88-100):
origin becomes the hint itself, so the isinstance facts are those of the
hint; a plain class is not a pseudo marker and issubclass on it does not
raise. -/
def hintAsOrigin (e : Env) : GOrigin :=
  { flags := e.hintFlags
    isPseudo := false
    isinstanceRaises := e.hintIsinstanceRaises
    isinstanceHolds := e.hintIsinstanceHolds
    issubclassRaises := false }

/-- The origin after the bare-class synthesis step (_generic.py lines
88-100): when origin is None and the hint is a type subclassing Mapping,
Iterable or Callable, the hint itself becomes the origin. -/
def resolvedOrigin (e : Env) : Option GOrigin :=
  match e.origin with
  | some o => some o
  | none =>
    if e.hintIsType then
      if e.hintFlags.isMapping then some (hintAsOrigin e)
      else if e.hintFlags.isIterable then some (hintAsOrigin e)
      else if e.hintFlags.isCallable then some (hintAsOrigin e)
      else none
    else none

/-- Length of the args tuple after the synthesis step: (Any, Any) for a
bare Mapping, (Any,) for a bare Iterable, (..., Any) for a bare Callable
(_generic.py lines 92, 96, 100). -/
def resolvedArgsLen (e : Env) : Nat :=
  match e.origin with
  | some _ => e.argsLen
  | none =>
    if e.hintIsType then
      if e.hintFlags.isMapping then 2
      else if e.hintFlags.isIterable then 1
      else if e.hintFlags.isCallable then 2
      else e.argsLen
    else e.argsLen

/-- The dispatch chain of _generic.py lines 155-185: gated by
issubclass(origin, (Iterable, Callable)) with a TypeError treated as a
failed gate, then the first matching arm of the if..elif chain in the order
mapping, set, sequence, collection, iterable, callable. -/
def selectMatcher (o : GOrigin) : Option Matcher :=
  if o.issubclassRaises then none
  else if !(o.flags.isIterable || o.flags.isCallable) then none
  else if o.flags.isMapping then some Matcher.mapping
  else if o.flags.isSet then some Matcher.set
  else if o.flags.isSequence then some Matcher.sequence
  else if o.flags.isCollection then some Matcher.collection
  else if o.flags.isIterable then some Matcher.iterable
  else if o.flags.isCallable then some Matcher.callable
  else none

/-- Modelled from the spec: the most specific structural protocol the
origin satisfies, in the strict specificity order mapping > set >
sequence > generic-collection > iterable > callable of spec section 4.4
step 8.  Refinement target for the dispatch chain. -/
def mostSpecificMatcher (f : OriginFlags) : Option Matcher :=
  if f.isMapping then some Matcher.mapping
  else if f.isSet then some Matcher.set
  else if f.isSequence then some Matcher.sequence
  else if f.isCollection then some Matcher.collection
  else if f.isIterable then some Matcher.iterable
  else if f.isCallable then some Matcher.callable
  else none

/-- One element-check loop of the fallback paths (_generic.py lines
205-214, 226-235, 242-251): each check conjoins its immutable flag into the
running conjunction, and the first invalid check aborts the loop.  Returns
the checks actually performed and, when all were valid, the final
conjunction (none signals that an invalid check aborted the loop). -/
def runChecks (imm : Bool) : List CheckResult → List CheckResult × Option Bool
  | [] => ([], some imm)
  | c :: rest =>
    if c.valid then
      let r := runChecks (imm && c.immutable) rest
      (c :: r.1, r.2)
    else ([c], none)

/-- Instrumented outcome of one call of _check_generic: the returned
CheckResult or the error raised, the verdict argument of every
add_cache_entry call made, the structural matchers invoked, and the
recursive element or parameter checks performed by the fallback paths. -/
structure Outcome where
  result : Except RunError CheckResult
  cacheWrites : List Bool
  matcherRuns : List Matcher
  recChecks : List CheckResult
deriving Repr

/-- Last-resort iterable fallback of _generic.py lines 241-262: if the
object is iterable, every item is checked against args[0] (an empty args
tuple raises IndexError on the first item); an invalid item yields
CheckResult(NOT_VALID, NOT_IMMUTABLE) or a TYPE_HINT_MISMATCH raise, and
otherwise the result is valid with the conjoined immutability, cached when
that conjunction holds. -/
def iterFallback (e : Env) : Outcome :=
  if e.objHasIter then
    if !e.itemChecks.isEmpty && resolvedArgsLen e == 0 then
      { result := .error .rawIndexError, cacheWrites := [],
        matcherRuns := [], recChecks := [] }
    else
      match runChecks e.objIsImmutable e.itemChecks with
      | (ran, some imm) =>
        { result := .ok ⟨IS_VALID, imm⟩,
          cacheWrites := if imm then [IS_VALID] else [],
          matcherRuns := [], recChecks := ran }
      | (ran, none) =>
        if e.raiseOnError then
          { result := .error (.typed .TYPE_HINT_MISMATCH), cacheWrites := [],
            matcherRuns := [], recChecks := ran }
        else
          { result := .ok ⟨NOT_VALID, NOT_IMMUTABLE⟩, cacheWrites := [],
            matcherRuns := [], recChecks := ran }
  else
    { result := .ok ⟨IS_VALID, e.objIsImmutable⟩,
      cacheWrites := if e.objIsImmutable then [IS_VALID] else [],
      matcherRuns := [], recChecks := [] }

/-- Fallback for user-defined generics, _generic.py lines 196-262: first the
__orig_class__ parameter loop (lines 202-218), then the runtime-type
origin/args loop guarded by the absence of __orig_class__ (lines 221-238),
then the iterable last resort. -/
def fallbackCheck (e : Env) : Outcome :=
  if e.hasOrigClass then
    if e.origClassChecks.length == resolvedArgsLen e then
      match runChecks e.objIsImmutable e.origClassChecks with
      | (ran, some imm) =>
        { result := .ok ⟨IS_VALID, imm⟩,
          cacheWrites := if imm then [IS_VALID] else [],
          matcherRuns := [], recChecks := ran }
      | (ran, none) =>
        if e.raiseOnError then
          { result := .error (.typed .VALIDATION_FAILED), cacheWrites := [],
            matcherRuns := [], recChecks := ran }
        else
          { result := .ok ⟨NOT_VALID, NOT_IMMUTABLE⟩, cacheWrites := [],
            matcherRuns := [], recChecks := ran }
    else iterFallback e
  else
    if e.typeOriginMatches then
      match e.typeArgsChecks with
      | some l =>
        if l.length == resolvedArgsLen e then
          match runChecks e.objIsImmutable l with
          | (ran, some imm) =>
            { result := .ok ⟨IS_VALID, imm⟩,
              cacheWrites := if imm then [IS_VALID] else [],
              matcherRuns := [], recChecks := ran }
          | (ran, none) =>
            if e.raiseOnError then
              { result := .error (.typed .VALIDATION_FAILED), cacheWrites := [],
                matcherRuns := [], recChecks := ran }
            else
              { result := .ok ⟨NOT_VALID, NOT_IMMUTABLE⟩, cacheWrites := [],
                matcherRuns := [], recChecks := ran }
        else iterFallback e
      | none => iterFallback e
    else iterFallback e

/-- Embedding of _check_generic (_generic.py lines 31-262): cache probe,
immutability classification, non-runtime-checkable Protocol rejection,
bare-class origin synthesis, plain isinstance path when no origin resolves,
isinstance against the origin (a TypeError re-raised as a typed
VALIDATION_FAILED error, for pseudo-origins and other non-type origins
alike), the empty-args shortcut, the structural-matcher dispatch, and the
user-defined-generic fallback. -/
def checkGeneric (e : Env) : Outcome :=
  match e.cachedResult with
  | some v =>
    if v || !e.raiseOnError then
      { result := .ok ⟨v, IS_IMMUTABLE⟩, cacheWrites := [],
        matcherRuns := [], recChecks := [] }
    else
      { result := .error (.typed .TYPE_HINT_MISMATCH), cacheWrites := [],
        matcherRuns := [], recChecks := [] }
  | none =>
    if e.nonRuntimeProtocol then
      if e.raiseOnError then
        { result := .error (.typed .NON_RUNTIME_CHECKABLE_PROTOCOL),
          cacheWrites := [], matcherRuns := [], recChecks := [] }
      else
        { result := .ok ⟨NOT_VALID, e.objIsImmutable⟩, cacheWrites := [],
          matcherRuns := [], recChecks := [] }
    else
      match resolvedOrigin e with
      | none =>
        if e.hintIsinstanceRaises then
          { result := .error .rawTypeError, cacheWrites := [],
            matcherRuns := [], recChecks := [] }
        else if e.hintIsinstanceHolds then
          { result := .ok ⟨IS_VALID, e.objIsImmutable⟩,
            cacheWrites := if e.objIsImmutable then [IS_VALID] else [],
            matcherRuns := [], recChecks := [] }
        else if e.raiseOnError then
          { result := .error (.typed .VALIDATION_FAILED), cacheWrites := [],
            matcherRuns := [], recChecks := [] }
        else
          { result := .ok ⟨NOT_VALID, e.objIsImmutable⟩, cacheWrites := [],
            matcherRuns := [], recChecks := [] }
      | some o =>
        if o.isinstanceRaises then
          { result := .error (.typed .VALIDATION_FAILED), cacheWrites := [],
            matcherRuns := [], recChecks := [] }
        else if !o.isinstanceHolds then
          if e.raiseOnError then
            { result := .error (.typed .VALIDATION_FAILED), cacheWrites := [],
              matcherRuns := [], recChecks := [] }
          else
            { result := .ok ⟨NOT_VALID, e.objIsImmutable⟩, cacheWrites := [],
              matcherRuns := [], recChecks := [] }
        else if resolvedArgsLen e == 0 && !e.hintIsinstanceRaises
                && e.hintIsinstanceHolds then
          { result := .ok ⟨IS_VALID, e.objIsImmutable⟩,
            cacheWrites := if e.objIsImmutable then [IS_VALID] else [],
            matcherRuns := [], recChecks := [] }
        else
          match selectMatcher o with
          | some m =>
            let r := e.matcherResult m
            { result :=
                if e.raiseOnError && !r.valid then
                  .error (.typed .TYPE_HINT_MISMATCH)
                else .ok r
              cacheWrites := if r.valid && r.immutable then [r.immutable] else []
              matcherRuns := [m]
              recChecks := [] }
          | none => fallbackCheck e

/-- Modelled from the spec: add_cache_entry (spec section 4.2, _cache.py is
not under src/) inserts the entry only if type(obj) is not in
noncachable_types; otherwise the write is dropped.  Given the verdicts
passed by the add_cache_entry calls of one _check_generic call, this is the
list of verdicts actually inserted into the cache. -/
def insertedEntries (noncachable : Bool) (writes : List Bool) : List Bool :=
  if noncachable then [] else writes

/-
Cycle guard (C2).  The recursive descent of the engine is modelled over a
finite world: finitely many heap objects (object identity is the index),
each with a list of contained elements, and finitely many runtime hint
objects (type-hint identity is the index), each recording whether it demands
a structural descent and, if so, the hint its elements are checked against
(Python hint objects are heap values and recursive aliases make this graph
possibly cyclic).  The guard token is the ValidationState triple
(object identity, type hint, context label) of _validation_state.py; the
token is added to a copy of the parents set before descending
(_generic.py lines 152-153).  The membership short-circuit lives in
_check_instance_of_typehint (_type_hints.py, not under src/) and is
modelled from the spec, section 4.3: a descent that would revisit an
identical token returns valid for that branch without recursing.
-/

/-- Context labels used when descending (the code passes a fixed set of
string literals such as "generic_parameter" and "generic_item"). -/
inductive DescentCtx where
  | topLevel
  | genericParameter
  | genericItem
deriving DecidableEq, Fintype

/-- Finite world of heap objects and runtime hint objects for the recursive
descent. -/
structure DescentWorld where
  nObjs : Nat
  nHints : Nat
  children : Fin nObjs → List (Fin nObjs)
  isContainer : Fin nHints → Bool
  elemHint : Fin nHints → Fin nHints
  descCtx : Fin nHints → DescentCtx
  baseValid : Fin nObjs → Fin nHints → Bool

/-- ValidationState token: (object identity, type hint, context label). -/
def DescentWorld.Token (w : DescentWorld) :=
  Fin w.nObjs × Fin w.nHints × DescentCtx

instance (w : DescentWorld) : DecidableEq w.Token := by
  unfold DescentWorld.Token
  infer_instance

instance (w : DescentWorld) : Fintype w.Token := by
  unfold DescentWorld.Token
  infer_instance

/-- Recursive descent with the cycle guard: a token already in the
caller-supplied parents set short-circuits to valid (modelled from the
spec, section 4.3); otherwise a container hint adds the token to a copy of
parents (_generic.py lines 152-153) and descends into every element; a
non-container hint performs its base check.  Lean accepts the definition
only because the descent terminates: the parents set grows inside the
finite token universe. -/
def checkDescent (w : DescentWorld) (o : Fin w.nObjs) (h : Fin w.nHints)
    (ctx : DescentCtx) (parents : Finset w.Token) : Bool :=
  if hmem : ((o, h, ctx) : w.Token) ∈ parents then true
  else if w.isContainer h then
    let np : Finset w.Token := insert ((o, h, ctx) : w.Token) parents
    (w.children o).attach.all
      (fun c => checkDescent w c.1 (w.elemHint h) (w.descCtx h) np)
  else w.baseValid o h
termination_by (Finset.univ \ parents).card
decreasing_by
  apply Finset.card_lt_card
  rw [Finset.ssubset_iff_of_subset
    (Finset.sdiff_subset_sdiff (Finset.Subset.refl _) (Finset.subset_insert _ _))]
  exact ⟨((o, h, ctx) : w.Token),
    Finset.mem_sdiff.mpr ⟨Finset.mem_univ _, hmem⟩,
    fun hc => (Finset.mem_sdiff.mp hc).2 (Finset.mem_insert_self _ _)⟩

/-- A world with a single self-referential container (a sequence whose only
element is itself) and a single matching recursive-shaped container hint. -/
@[reducible] def cyclicWorld : DescentWorld where
  nObjs := 1
  nHints := 1
  children := fun _ => [0]
  isContainer := fun _ => true
  elemHint := fun _ => 0
  descCtx := fun _ => DescentCtx.genericItem
  baseValid := fun _ _ => true

/-
Parents-set aliasing (C7).  The Python parents argument is a mutable set
object; to state that it is never mutated in place, sets are modelled as
cells of a heap (a list of token sets indexed by reference), with the two
operations _check_generic performs: parents.copy() allocates a fresh cell
holding the same elements, and new_parents.add(token) mutates only the
fresh cell (_generic.py lines 152-153).  The structural matchers and the
recursive entry point that receive the references are not under src/; their
effect is an arbitrary heap transformer constrained by the spec contract of
sections 4.3 and 4.5 (parents sets are never mutated in place, only copied),
stated as the frame hypothesis that every cell existing before the call
keeps its contents.
-/

/-- Tokens stored in parents sets: (object identity, hint identity, context
label), the ValidationState triple. -/
abbrev VToken := Nat × Nat × DescentCtx

/-- Heap of set objects: the index into the list is the reference. -/
abbrev SetHeap := List (Finset VToken)

/-- parents.copy(): allocate a fresh cell holding the same elements and
return its reference. -/
def copyRef (h : SetHeap) (r : Nat) : SetHeap × Nat :=
  (h ++ [h.getD r ∅], h.length)

/-- new_parents.add(token): mutate the cell at the given reference in
place. -/
def addToken (h : SetHeap) (r : Nat) (t : VToken) : SetHeap :=
  h.set r (insert t (h.getD r ∅))

/-- Heap effect of _check_generic on the parents sets (_generic.py lines
152-185 and the fallback recursion): copy the caller-supplied set, add the
new ValidationState token to the copy, then run the structural matchers and
recursive checks, which receive the new reference (and, on the fallback
paths, the original reference).  Returns the final heap and the reference
of the new set. -/
def parentsHeapEffect (rest : SetHeap → Nat → Nat → SetHeap)
    (h : SetHeap) (parentsRef : Nat) (tok : VToken) : SetHeap × Nat :=
  let c := copyRef h parentsRef
  let h2 := addToken c.1 c.2 tok
  (rest h2 c.2 parentsRef, c.2)

/-
Cache keys (C9), from _validation_cache/_cache_key.py.  Python runtime
types are modelled as an inductive with a distinguished NoneType (the
constructor replaces a None cls_type by type(None)); object identity is a
natural number.  Python's hash of the (obj_type, instance_id) tuple is an
arbitrary function of the two stored components.
-/

/-- Runtime type objects, as stored in a CacheKey.  noneType stands for
type(None); other types are distinguished by an index. -/
inductive PyType where
  | noneType
  | pyType (n : Nat)
deriving DecidableEq, Repr

/-- CacheKey from _cache_key.py: the stored type and the id() of the object
instance. -/
structure CacheKey where
  obj_type : PyType
  instance_id : Nat
deriving Repr

/-- CacheKey.__init__ (lines 22-31): a None cls_type is replaced by
type(None); the instance id is id(obj). -/
def CacheKey.make (clsType : Option PyType) (objId : Nat) : CacheKey :=
  { obj_type := clsType.getD PyType.noneType, instance_id := objId }

/-- CacheKey.__eq__ (lines 36-39): compare the (obj_type, instance_id)
tuples. -/
def CacheKey.keyEq (a b : CacheKey) : Bool :=
  decide (a.obj_type = b.obj_type) && decide (a.instance_id = b.instance_id)

/-- CacheKey.__hash__ (lines 33-34): hash of the (obj_type, instance_id)
tuple; the tuple hash is an arbitrary function of the two components. -/
def cacheKeyHash (tupleHash : PyType → Nat → Nat) (k : CacheKey) : Nat :=
  tupleHash k.obj_type k.instance_id

/-- Modelled from the spec: lookup in the validation cache store
(_cache.py is not under src/) finds the entry whose key equals the probe
key under CacheKey equality. -/
def cacheLookup (store : List (CacheKey × Bool)) (k : CacheKey) : Option Bool :=
  (store.find? (fun p => p.1.keyEq k)).map (fun p => p.2)

/-- Modelled from the spec: inserting an entry into the validation cache
store. -/
def cacheInsert (store : List (CacheKey × Bool)) (k : CacheKey) (v : Bool) :
    List (CacheKey × Bool) :=
  (k, v) :: store

/-
Concrete environments used as witnesses and counterexamples.
-/

/-- Origin flags of a type that satisfies none of the six structural
protocols. -/
def noFlags : OriginFlags :=
  ⟨false, false, false, false, false, false⟩

/-- Origin flags of a concrete mapping type: a Mapping is a Collection and
a Collection is an Iterable, so such a type satisfies both the mapping and
the iterable protocol. -/
def mappingFlags : OriginFlags :=
  ⟨true, false, false, true, true, false⟩

/-- Default environment: immutable object, cache miss, no origin, a
non-type hint whose isinstance check succeeds, no special attributes. -/
def baseEnv : Env where
  cachedResult := none
  objIsImmutable := true
  raiseOnError := false
  nonRuntimeProtocol := false
  origin := none
  argsLen := 0
  hintIsType := false
  hintFlags := noFlags
  hintIsinstanceRaises := false
  hintIsinstanceHolds := true
  noncachable := false
  matcherResult := fun _ => ⟨true, true⟩
  matcherElemImm := fun _ => true
  hasOrigClass := false
  origClassChecks := []
  typeOriginMatches := false
  typeArgsChecks := none
  objHasIter := false
  itemChecks := []

/-- A pseudo-origin (Required, NotRequired, ReadOnly or Never) outside a
TypedDict context: isinstance against it raises TypeError. -/
def pseudoOrigin : GOrigin :=
  ⟨noFlags, true, true, false, false⟩

/-- An ordinary class origin for which isinstance simply fails. -/
def plainMismatchOrigin : GOrigin :=
  ⟨noFlags, false, false, false, false⟩

/-- An ordinary non-structural class origin the object is an instance
of. -/
def plainInstanceOrigin : GOrigin :=
  ⟨noFlags, false, false, true, false⟩

/-- A mapping origin the object is an instance of. -/
def mappingOrigin : GOrigin :=
  ⟨mappingFlags, false, false, true, false⟩

/-- Call with a pseudo-origin and raise_on_error left False. -/
def envPseudo : Env :=
  { baseEnv with origin := some pseudoOrigin, argsLen := 1 }

/-- Call with a pseudo-origin and raise_on_error True. -/
def envPseudoRaise : Env :=
  { envPseudo with raiseOnError := true }

/-- Call with an ordinary failing isinstance and raise_on_error True. -/
def envPlainMismatch : Env :=
  { baseEnv with
    origin := some plainMismatchOrigin
    argsLen := 1
    raiseOnError := true }

/-- Call dispatching a parameterized mapping hint. -/
def envMapping : Env :=
  { baseEnv with origin := some mappingOrigin, argsLen := 1 }

/-- Call reaching the user-defined-generic fallback with no structural
matcher, no __orig_class__, no recorded origin/args pair and a
non-iterable object. -/
def envVacuous : Env :=
  { baseEnv with origin := some plainInstanceOrigin, argsLen := 1 }

/-- Call on a non-runtime-checkable Protocol hint. -/
def envProto : Env :=
  { baseEnv with nonRuntimeProtocol := true }

/-- Call with a cached valid verdict. -/
def envCacheHit : Env :=
  { baseEnv with cachedResult := some true }

/-- Immutable object whose __orig_class__ parameter check comes back
invalid but immutable: the fallback then returns
CheckResult(NOT_VALID, NOT_IMMUTABLE) even though the object and every
inspected element classified immutable. -/
def envImmCounter : Env :=
  { baseEnv with
    origin := some plainInstanceOrigin
    argsLen := 1
    hasOrigClass := true
    origClassChecks := [⟨false, true⟩] }

/-- Same shape with a valid, immutable parameter check. -/
def envImmWitness : Env :=
  { baseEnv with
    origin := some plainInstanceOrigin
    argsLen := 1
    hasOrigClass := true
    origClassChecks := [⟨true, true⟩] }

/-
Theorems.
-/

/-- When the element loop finishes with final conjunction true, the initial
immutability conjunct was true as well. -/
theorem runChecks_imm_of_some (l : List CheckResult) :
    ∀ (imm imm' : Bool), (runChecks imm l).2 = some imm' → imm' = true →
      imm = true := by
  induction l with
  | nil =>
    intro imm imm' h h'
    simp [runChecks] at h
    rw [h]
    exact h'
  | cons c rest ih =>
    intro imm imm' h h'
    by_cases hv : c.valid
    · simp [runChecks, hv] at h
      have := ih (imm && c.immutable) imm' h h'
      exact (Bool.and_eq_true _ _ |>.mp this).1
    · simp [runChecks, hv] at h

/-- When the element loop finishes with all checks valid, every check was
consumed and the final conjunction is the initial flag conjoined with the
immutability of every check. -/
theorem runChecks_some_eq (l : List CheckResult) :
    ∀ (imm imm' : Bool) (ran : List CheckResult),
      runChecks imm l = (ran, some imm') →
      ran = l ∧ imm' = (imm && l.all (fun c => c.immutable)) := by
  induction l with
  | nil =>
    intro imm imm' ran h
    simp [runChecks] at h
    simp [h.1, h.2]
  | cons c rest ih =>
    intro imm imm' ran h
    by_cases hv : c.valid
    · simp [runChecks, hv] at h
      obtain ⟨h1, h2⟩ := h
      obtain ⟨hr, he⟩ := ih (imm && c.immutable) imm'
        (runChecks (imm && c.immutable) rest).1 (by rw [← h2])
      constructor
      · rw [← h1, hr]
      · rw [he]
        simp [List.all_cons, hv, Bool.and_assoc]
    · simp [runChecks, hv] at h

/-- A token already present in the parents set makes the descent return
valid without recursing. -/
theorem checkDescent_of_mem (w : DescentWorld) (o : Fin w.nObjs)
    (h : Fin w.nHints) (ctx : DescentCtx) (parents : Finset w.Token)
    (hmem : ((o, h, ctx) : w.Token) ∈ parents) :
    checkDescent w o h ctx parents = true := by
  rw [checkDescent]
  simp [hmem]

/-- Unfolding of the descent on a fresh token and a container hint: the
token is added to a copy of parents before every child is descended
into. -/
theorem checkDescent_descend (w : DescentWorld) (o : Fin w.nObjs)
    (h : Fin w.nHints) (ctx : DescentCtx) (parents : Finset w.Token)
    (hmem : ((o, h, ctx) : w.Token) ∉ parents)
    (hc : w.isContainer h = true) :
    checkDescent w o h ctx parents =
      (w.children o).attach.all (fun c =>
        checkDescent w c.1 (w.elemHint h) (w.descCtx h)
          (insert ((o, h, ctx) : w.Token) parents)) := by
  rw [checkDescent]
  simp [hmem, hc]

/-- C2: for every object, including a self-referential container validated
against a matching recursive-shaped hint, the recursive check terminates
and returns a result: before descending, the ValidationState token
(object identity, type hint, context) is added to the parents set, and a
descent that would revisit an identical token returns valid for that
branch instead of recursing.  Stated as: (1) a revisited token returns
valid; (2) a fresh token on a container hint is added to a copy of the
parents set before every element is descended into; (3) the check of a
sequence containing itself against a matching recursive container hint
evaluates to a result (the totality of checkDescent is exactly the
termination of the guarded descent). -/
theorem check_generic_cycle_guard :
    (∀ (w : DescentWorld) (o : Fin w.nObjs) (h : Fin w.nHints)
       (ctx : DescentCtx) (parents : Finset w.Token),
       ((o, h, ctx) : w.Token) ∈ parents →
       checkDescent w o h ctx parents = true) ∧
    (∀ (w : DescentWorld) (o : Fin w.nObjs) (h : Fin w.nHints)
       (ctx : DescentCtx) (parents : Finset w.Token),
       ((o, h, ctx) : w.Token) ∉ parents → w.isContainer h = true →
       checkDescent w o h ctx parents =
         (w.children o).attach.all (fun c =>
           checkDescent w c.1 (w.elemHint h) (w.descCtx h)
             (insert ((o, h, ctx) : w.Token) parents))) ∧
    checkDescent cyclicWorld 0 0 DescentCtx.genericItem ∅ = true := by
  refine ⟨checkDescent_of_mem, checkDescent_descend, ?_⟩
  rw [checkDescent_descend cyclicWorld 0 0 DescentCtx.genericItem ∅
    (by simp) rfl]
  rw [List.all_eq_true]
  intro c _
  apply checkDescent_of_mem
  have h0 : c.1 = 0 := Fin.eq_zero c.1
  rw [h0]
  exact Finset.mem_insert_self _ _

/-- C2 witness: the guard applied to the concrete cyclic world, with the
token already recorded, and the concrete unfolding of the first descent. -/
theorem check_generic_cycle_guard_witness :
    checkDescent cyclicWorld 0 0 DescentCtx.genericItem
      {((0, 0, DescentCtx.genericItem) : cyclicWorld.Token)} = true ∧
    checkDescent cyclicWorld 0 0 DescentCtx.genericItem ∅ =
      (cyclicWorld.children 0).attach.all (fun c =>
        checkDescent cyclicWorld c.1 (cyclicWorld.elemHint 0)
          (cyclicWorld.descCtx 0)
          (insert ((0, 0, DescentCtx.genericItem) : cyclicWorld.Token) ∅)) :=
  ⟨check_generic_cycle_guard.1 cyclicWorld 0 0 DescentCtx.genericItem _
      (Finset.mem_singleton_self _),
   check_generic_cycle_guard.2.1 cyclicWorld 0 0 DescentCtx.genericItem ∅
      (by simp) rfl⟩

/-- C7: the caller-supplied parents set is never mutated in place: the
recursive calls receive a fresh reference (distinct from the caller's)
holding a copy of parents extended with the new ValidationState token, and
after the call the caller's parents set is exactly what it was before,
given the spec contract that the callees preserve every pre-existing set
cell. -/
theorem check_generic_parents_not_mutated
    (rest : SetHeap → Nat → Nat → SetHeap)
    (hframe : ∀ (s : SetHeap) (a b i : Nat), i < s.length →
      (rest s a b).getD i ∅ = s.getD i ∅)
    (s : SetHeap) (parentsRef : Nat) (tok : VToken)
    (hr : parentsRef < s.length) :
    ((parentsHeapEffect rest s parentsRef tok).1).getD parentsRef ∅ =
        s.getD parentsRef ∅ ∧
    (parentsHeapEffect rest s parentsRef tok).2 ≠ parentsRef ∧
    (addToken (copyRef s parentsRef).1 (copyRef s parentsRef).2 tok).getD
        (copyRef s parentsRef).2 ∅ = insert tok (s.getD parentsRef ∅) := by
  have happ : (s ++ [s.getD parentsRef ∅]).getD s.length ∅
      = s.getD parentsRef ∅ := by
    rw [List.getD_eq_getElem?_getD, List.getElem?_append_right (Nat.le_refl _)]
    simp
  have keff : parentsHeapEffect rest s parentsRef tok
      = (rest ((s ++ [s.getD parentsRef ∅]).set s.length
          (insert tok ((s ++ [s.getD parentsRef ∅]).getD s.length ∅)))
          s.length parentsRef, s.length) := rfl
  have kadd : addToken (copyRef s parentsRef).1 (copyRef s parentsRef).2 tok
      = (s ++ [s.getD parentsRef ∅]).set s.length
          (insert tok ((s ++ [s.getD parentsRef ∅]).getD s.length ∅)) := rfl
  refine ⟨?_, ?_, ?_⟩
  · rw [keff]
    rw [hframe _ _ _ parentsRef (by simp; omega)]
    rw [List.getD_eq_getElem?_getD, List.getElem?_set_ne (by omega),
      List.getElem?_append, if_pos hr, ← List.getD_eq_getElem?_getD]
  · rw [keff]
    show s.length ≠ parentsRef
    omega
  · have kref : (copyRef s parentsRef).2 = s.length := rfl
    rw [kadd, kref, List.getD_eq_getElem?_getD,
      List.getElem?_set_self (by simp), Option.getD_some, happ]

/-- C7 witness: the frame theorem applied at a one-cell heap with an
identity callee. -/
theorem check_generic_parents_not_mutated_witness :
    ((parentsHeapEffect (fun s _ _ => s) [∅] 0
        (0, 0, DescentCtx.topLevel)).1).getD 0 ∅ =
      (([∅] : SetHeap)).getD 0 ∅ :=
  (check_generic_parents_not_mutated (fun s _ _ => s)
    (fun _ _ _ _ _ => rfl) [∅] 0 (0, 0, DescentCtx.topLevel)
    (by decide)).1

/-- C9: two CacheKeys are equal exactly when their stored types and stored
instance ids are equal; equal components give equal hashes; hence two
distinct but equal objects of the same type (distinct ids) produce
independent cache entries: inserting an entry for one id does not change
the lookup for the other. -/
theorem cache_key_identity (tupleHash : PyType → Nat → Nat)
    (a b : CacheKey) :
    (a.keyEq b = true ↔
      (a.obj_type = b.obj_type ∧ a.instance_id = b.instance_id)) ∧
    (a.obj_type = b.obj_type → a.instance_id = b.instance_id →
      cacheKeyHash tupleHash a = cacheKeyHash tupleHash b) ∧
    (∀ (t : PyType) (i j : Nat) (v : Bool) (store : List (CacheKey × Bool)),
      i ≠ j →
      cacheLookup (cacheInsert store ⟨t, i⟩ v) ⟨t, j⟩ =
        cacheLookup store ⟨t, j⟩) := by
  refine ⟨?_, ?_, ?_⟩
  · simp [CacheKey.keyEq, Bool.and_eq_true, decide_eq_true_iff]
  · intro h1 h2
    simp [cacheKeyHash, h1, h2]
  · intro t i j v store hij
    have hne : (CacheKey.keyEq ⟨t, i⟩ ⟨t, j⟩) = false := by
      simp [CacheKey.keyEq, hij]
    simp [cacheLookup, cacheInsert, List.find?, hne]

/-- C9 witness: independent entries for two distinct ids of the same
type. -/
theorem cache_key_identity_witness :
    cacheLookup (cacheInsert [] ⟨PyType.pyType 0, 1⟩ true)
        ⟨PyType.pyType 0, 2⟩ =
      cacheLookup [] ⟨PyType.pyType 0, 2⟩ :=
  (cache_key_identity (fun _ n => n) ⟨PyType.pyType 0, 1⟩
    ⟨PyType.pyType 0, 2⟩).2.2 (PyType.pyType 0) 1 2 true [] (by decide)

/-- C6: on a cache hit, _check_generic returns immediately with the cached
verdict and immutable=True, running no matcher, no recursive check and no
cache write; it raises the typed TYPE_HINT_MISMATCH error exactly when the
cached verdict is invalid and raise_on_error is True. -/
theorem check_generic_cache_hit (e : Env) (v : Bool)
    (hc : e.cachedResult = some v) :
    ((v = true ∨ e.raiseOnError = false) →
      (checkGeneric e).result = .ok ⟨v, IS_IMMUTABLE⟩) ∧
    (v = false → e.raiseOnError = true →
      (checkGeneric e).result = .error (.typed .TYPE_HINT_MISMATCH)) ∧
    (checkGeneric e).matcherRuns = [] ∧
    (checkGeneric e).recChecks = [] ∧
    (checkGeneric e).cacheWrites = [] := by
  cases v <;> rcases hR : e.raiseOnError <;>
    simp [checkGeneric, hc, hR, IS_IMMUTABLE]

/-- C6 witness: a cached valid verdict is returned as (valid, immutable)
with no recomputation. -/
theorem check_generic_cache_hit_witness :
    (checkGeneric envCacheHit).result = .ok ⟨true, IS_IMMUTABLE⟩ :=
  (check_generic_cache_hit envCacheHit true rfl).1 (Or.inl rfl)

/-- C5: a Protocol hint that is not runtime-checkable is rejected before
any structural matching: with raise_on_error the typed error with tag
NON_RUNTIME_CHECKABLE_PROTOCOL is raised, otherwise an invalid CheckResult
carrying the object's immutability classification is returned; no matcher
runs and nothing is cached. -/
theorem check_generic_non_runtime_protocol (e : Env)
    (hc : e.cachedResult = none) (hp : e.nonRuntimeProtocol = true) :
    (e.raiseOnError = true →
      (checkGeneric e).result =
        .error (.typed .NON_RUNTIME_CHECKABLE_PROTOCOL)) ∧
    (e.raiseOnError = false →
      (checkGeneric e).result = .ok ⟨NOT_VALID, e.objIsImmutable⟩) ∧
    (checkGeneric e).matcherRuns = [] ∧
    (checkGeneric e).cacheWrites = [] := by
  rcases hR : e.raiseOnError <;>
    simp [checkGeneric, hc, hp, hR, NOT_VALID]

/-- C5 witness: the non-runtime-checkable Protocol rejection on a concrete
call with raise_on_error False. -/
theorem check_generic_non_runtime_protocol_witness :
    (checkGeneric envProto).result = .ok ⟨NOT_VALID, envProto.objIsImmutable⟩ :=
  (check_generic_non_runtime_protocol envProto rfl rfl).2.1 rfl

/-- C3 counterexample: on a pseudo-origin call (raise_on_error False) the
raised typed error carries tag VALIDATION_FAILED, which differs from the
dedicated pseudo-origin tag and is the very tag an ordinary isinstance
mismatch raises, so the claimed dedicated machine-readable tag is not what
the code produces. -/
theorem check_generic_pseudo_origin_counterexample :
    (checkGeneric envPseudo).result = .error (.typed .VALIDATION_FAILED) ∧
    envPseudo.raiseOnError = false ∧
    RunError.typed .VALIDATION_FAILED ≠ RunError.typed .INVALID_PSEUDO_ORIGIN ∧
    (checkGeneric envPlainMismatch).result =
      .error (.typed .VALIDATION_FAILED) :=
  ⟨rfl, rfl, by decide, rfl⟩

/-- C3 amended: for every call whose resolved origin is a pseudo-origin
marker used outside a TypedDict context (isinstance against it raises), a
typed error is always raised regardless of raise_on_error, but it carries
the general VALIDATION_FAILED tag, not a tag dedicated to invalid
pseudo-origin usage. -/
theorem check_generic_pseudo_origin_raises (e : Env) (o : GOrigin)
    (hc : e.cachedResult = none) (hp : e.nonRuntimeProtocol = false)
    (ho : e.origin = some o) (hps : o.isPseudo = true)
    (hir : o.isinstanceRaises = true) :
    (checkGeneric e).result = .error (.typed .VALIDATION_FAILED) := by
  simp [checkGeneric, hc, hp, resolvedOrigin, ho, hir]

/-- C3 witness: the always-raised pseudo-origin error on a concrete call
with raise_on_error True. -/
theorem check_generic_pseudo_origin_raises_witness :
    (checkGeneric envPseudoRaise).result = .error (.typed .VALIDATION_FAILED) :=
  check_generic_pseudo_origin_raises envPseudoRaise pseudoOrigin
    rfl rfl rfl rfl rfl

/-- The dispatch chain computes exactly the spec's most-specific-protocol
choice whenever the origin flags respect the collections.abc subclass
hierarchy and the gating issubclass call does not raise. -/
theorem selectMatcher_eq_mostSpecific (o : GOrigin)
    (hcoh : o.flags.coherent) (hsr : o.issubclassRaises = false) :
    selectMatcher o = mostSpecificMatcher o.flags := by
  obtain ⟨⟨m, s, sq, c, it, cb⟩, ps, ir, ih, sr⟩ := o
  simp only at hsr
  subst hsr
  revert hcoh
  revert ps ir ih
  revert m s sq c it cb
  decide

/-- C4: for a call with a resolved origin and non-empty args that reaches
the dispatch (cache miss, no Protocol rejection, isinstance against the
origin succeeds), exactly one structural matcher runs, and it is the most
specific protocol the origin satisfies in the strict order mapping > set >
sequence > generic-collection > iterable > callable; in particular an
origin satisfying both Mapping and Iterable is routed to the mapping
matcher. -/
theorem check_generic_dispatch (e : Env) (o : GOrigin) (m : Matcher)
    (hc : e.cachedResult = none) (hp : e.nonRuntimeProtocol = false)
    (ho : e.origin = some o) (hcoh : o.flags.coherent)
    (hsr : o.issubclassRaises = false)
    (hir : o.isinstanceRaises = false) (hih : o.isinstanceHolds = true)
    (hargs : e.argsLen ≠ 0)
    (hm : mostSpecificMatcher o.flags = some m) :
    (checkGeneric e).matcherRuns = [m] ∧
    (o.flags.isMapping = true → m = Matcher.mapping) := by
  have hsel : selectMatcher o = some m := by
    rw [selectMatcher_eq_mostSpecific o hcoh hsr, hm]
  have hA : resolvedArgsLen e = e.argsLen := by
    simp [resolvedArgsLen, ho]
  constructor
  · simp [checkGeneric, hc, hp, resolvedOrigin, ho, hir, hih, hA,
      hargs, hsel]
  · intro hmap
    simp [mostSpecificMatcher, hmap] at hm
    exact hm.symm

/-- C4 witness: a concrete mapping origin (satisfying both Mapping and
Iterable) is routed to the mapping matcher and to it alone. -/
theorem check_generic_dispatch_witness :
    (checkGeneric envMapping).matcherRuns = [Matcher.mapping] :=
  (check_generic_dispatch envMapping mappingOrigin Matcher.mapping
    rfl rfl rfl (by decide) rfl rfl rfl (by decide) rfl).1

/-- C10: an object that is an instance of the resolved origin but matches
no structural matcher, has no __orig_class__, whose runtime type does not
record a matching origin/args pair (the type's __origin__ is not the
origin, or its __args__ is absent, or its __args__ length differs from the
hint's args) and that is not iterable, is accepted vacuously: the fallback
returns a valid CheckResult carrying the object's own immutability
classification, and no recursive comparison against the hint's type
arguments is ever performed. -/
theorem check_generic_vacuous_fallback (e : Env) (o : GOrigin)
    (hc : e.cachedResult = none) (hp : e.nonRuntimeProtocol = false)
    (ho : e.origin = some o)
    (hir : o.isinstanceRaises = false) (hih : o.isinstanceHolds = true)
    (hsel : selectMatcher o = none)
    (hoc : e.hasOrigClass = false)
    (htm : e.typeOriginMatches = false ∨ e.typeArgsChecks = none ∨
      ∀ l, e.typeArgsChecks = some l → l.length ≠ e.argsLen)
    (hnoiter : e.objHasIter = false) (hargs : e.argsLen ≠ 0) :
    (checkGeneric e).result = .ok ⟨IS_VALID, e.objIsImmutable⟩ ∧
    (checkGeneric e).recChecks = [] ∧
    (checkGeneric e).matcherRuns = [] := by
  have hA : resolvedArgsLen e = e.argsLen := by
    simp [resolvedArgsLen, ho]
  have hfb : fallbackCheck e = iterFallback e := by
    unfold fallbackCheck
    rw [hoc]
    rcases htm with h | h | h
    · simp [h]
    · cases hT : e.typeOriginMatches <;> simp [hT, h]
    · cases hT : e.typeOriginMatches
      · simp [hT]
      · cases hL : e.typeArgsChecks with
        | none => simp [hT, hL]
        | some l => simp [hT, hL, hA, h l hL]
  simp [checkGeneric, hc, hp, resolvedOrigin, ho, hir, hih, hA, hargs,
    hsel, hfb, iterFallback, hnoiter, IS_VALID]

/-- C10 witness: the vacuous acceptance on a concrete immutable,
non-iterable object against a parameterized user-defined generic hint
whose runtime type records no matching origin. -/
theorem check_generic_vacuous_fallback_witness :
    (checkGeneric envVacuous).result =
      .ok ⟨IS_VALID, envVacuous.objIsImmutable⟩ :=
  (check_generic_vacuous_fallback envVacuous plainInstanceOrigin
    rfl rfl rfl rfl rfl rfl rfl (Or.inl rfl) rfl (by decide)).1

/-- Every verdict passed to add_cache_entry by the iterable last-resort
fallback is valid and happens under the object's immutability
classification. -/
theorem iterFallback_writes (e : Env) :
    ∀ v ∈ (iterFallback e).cacheWrites,
      v = true ∧ e.objIsImmutable = true := by
  intro v hv
  unfold iterFallback at hv
  repeat' (first | (split at hv) | (dsimp only at hv))
  all_goals
    first
    | exact absurd hv (List.not_mem_nil v)
    | (simp only [List.mem_singleton] at hv
       subst hv
       exact ⟨rfl, by assumption⟩)
    | (simp only [List.mem_singleton] at hv
       subst hv
       rename_i heq himm
       exact ⟨rfl, runChecks_imm_of_some _ _ _ (by rw [heq]) himm⟩)

/-- Every verdict passed to add_cache_entry by the user-defined-generic
fallback is valid and happens under the object's immutability
classification. -/
theorem fallbackCheck_writes (e : Env) :
    ∀ v ∈ (fallbackCheck e).cacheWrites,
      v = true ∧ e.objIsImmutable = true := by
  intro v hv
  unfold fallbackCheck at hv
  repeat' (first | (split at hv) | (dsimp only at hv))
  all_goals
    first
    | exact absurd hv (List.not_mem_nil v)
    | exact iterFallback_writes e v hv
    | (simp only [List.mem_singleton] at hv
       subst hv
       rename_i heq himm
       exact ⟨rfl, runChecks_imm_of_some _ _ _ (by rw [heq]) himm⟩)

/-- Every verdict passed to add_cache_entry anywhere in _check_generic is
valid and happens under the object's immutability classification; the
matcher hypothesis is the spec contract that a matcher reports immutable
only when the object's own classification is immutable. -/
theorem checkGeneric_writes (e : Env)
    (hM : ∀ m, (e.matcherResult m).immutable = true →
      e.objIsImmutable = true) :
    ∀ v ∈ (checkGeneric e).cacheWrites,
      v = true ∧ e.objIsImmutable = true := by
  intro v hv
  unfold checkGeneric at hv
  repeat' (first | (split at hv) | (dsimp only at hv))
  all_goals
    first
    | exact absurd hv (List.not_mem_nil v)
    | exact fallbackCheck_writes e v hv
    | (simp only [List.mem_singleton] at hv
       subst hv
       exact ⟨rfl, by assumption⟩)
    | (simp only [List.mem_singleton] at hv
       subst hv
       rename_i hg
       exact ⟨((Bool.and_eq_true _ _).mp hg).2,
         hM _ ((Bool.and_eq_true _ _).mp hg).2⟩)

/-- C1: on every execution path of _check_generic, an entry is inserted
into the validation cache only when the verdict is valid, the object was
classified immutable, and the object's type is not among the
noncachable_types; no path caches an invalid verdict or a verdict for an
object classified mutable.  The matcher hypothesis is the spec contract
that a matcher reports immutable only when the object's own classification
is immutable. -/
theorem check_generic_cache_writes (e : Env)
    (hM : ∀ m, (e.matcherResult m).immutable = true →
      e.objIsImmutable = true) :
    ∀ v ∈ insertedEntries e.noncachable (checkGeneric e).cacheWrites,
      v = true ∧ e.objIsImmutable = true ∧ e.noncachable = false := by
  intro v hv
  unfold insertedEntries at hv
  split at hv
  · exact absurd hv (List.not_mem_nil v)
  · rename_i hN
    simp only [Bool.not_eq_true] at hN
    have hgoal := checkGeneric_writes e hM v hv
    exact ⟨hgoal.1, hgoal.2, hN⟩

/-- C1 witness: the invariant applied to a concrete call that does write
the cache (immutable object, valid verdict, cachable type). -/
theorem check_generic_cache_writes_witness :
    true = true ∧ baseEnv.objIsImmutable = true ∧
      baseEnv.noncachable = false :=
  check_generic_cache_writes baseEnv (fun _ _ => rfl) true (by decide)

/-- The iterable last-resort fallback never runs a structural matcher. -/
theorem iterFallback_no_matcher (e : Env) :
    (iterFallback e).matcherRuns = [] := by
  unfold iterFallback
  repeat' split
  all_goals rfl

/-- The user-defined-generic fallback never runs a structural matcher. -/
theorem fallbackCheck_no_matcher (e : Env) :
    (fallbackCheck e).matcherRuns = [] := by
  unfold fallbackCheck
  repeat' split
  all_goals (first | rfl | exact iterFallback_no_matcher e)

/-- On a valid result of the iterable last-resort fallback, the immutable
flag is the conjunction of the object's classification and the inspected
items' immutability. -/
theorem iterFallback_imm_conj (e : Env) :
    ∀ r, (iterFallback e).result = .ok r → r.valid = true →
      r.immutable = (e.objIsImmutable
        && (iterFallback e).recChecks.all (fun c => c.immutable)) := by
  intro r
  generalize hE : iterFallback e = out
  unfold iterFallback at hE
  repeat' (first | (split at hE) | (dsimp only at hE))
  all_goals subst hE
  all_goals intro hr hval
  all_goals
    first
    | (simp at hr; done)
    | (dsimp only at hr
       simp only [Except.ok.injEq] at hr
       subst hr
       first
       | (simp [NOT_VALID] at hval; done)
       | (dsimp only
          obtain ⟨h1, h2⟩ := runChecks_some_eq _ _ _ _ (by assumption)
          rw [h2, h1]
          done)
       | simp)

/-- On a valid result of the user-defined-generic fallback, the immutable
flag is the conjunction of the object's classification and the inspected
parameters' or items' immutability. -/
theorem fallbackCheck_imm_conj (e : Env) :
    ∀ r, (fallbackCheck e).result = .ok r → r.valid = true →
      r.immutable = (e.objIsImmutable
        && (fallbackCheck e).recChecks.all (fun c => c.immutable)) := by
  intro r
  generalize hE : fallbackCheck e = out
  unfold fallbackCheck at hE
  repeat' (first | (split at hE) | (dsimp only at hE))
  all_goals subst hE
  all_goals intro hr hval
  all_goals
    first
    | exact iterFallback_imm_conj e r hr hval
    | (simp at hr; done)
    | (dsimp only at hr
       simp only [Except.ok.injEq] at hr
       subst hr
       first
       | (simp [NOT_VALID] at hval; done)
       | (dsimp only
          obtain ⟨h1, h2⟩ := runChecks_some_eq _ _ _ _ (by assumption)
          rw [h2, h1]
          done)
       | simp)

/-- C8 counterexample: an immutable object whose single inspected
generic parameter is immutable but invalid makes the fallback return
CheckResult(NOT_VALID, NOT_IMMUTABLE): the returned immutable flag is
false although the conjunction of the object's classification and every
inspected element's immutability is true, so the claimed equality fails on
this invalid result. -/
theorem check_generic_immutable_conjunction_counterexample :
    (checkGeneric envImmCounter).result =
      .ok ⟨NOT_VALID, NOT_IMMUTABLE⟩ ∧
    envImmCounter.objIsImmutable = true ∧
    (checkGeneric envImmCounter).recChecks.all (fun c => c.immutable)
      = true ∧
    NOT_IMMUTABLE ≠ (envImmCounter.objIsImmutable
      && (checkGeneric envImmCounter).recChecks.all (fun c => c.immutable)) :=
  ⟨rfl, rfl, rfl, by decide⟩

/-- C8 amended: on every cache-miss call whose result is valid, the
immutable flag of the returned CheckResult equals the conjunction of the
object's own immutability classification and the immutable flags of every
inspected nested element or generic parameter (the matcher hypothesis is
the spec contract for the structural matchers); on invalid results of the
fallback loops the flag is instead hardcoded to NOT_IMMUTABLE. -/
theorem check_generic_immutable_conjunction (e : Env)
    (hc : e.cachedResult = none)
    (hM : ∀ m, (e.matcherResult m).immutable
      = (e.objIsImmutable && e.matcherElemImm m)) :
    ∀ r, (checkGeneric e).result = .ok r → r.valid = true →
      r.immutable = (e.objIsImmutable
        && ((checkGeneric e).recChecks.all (fun c => c.immutable)
            && (checkGeneric e).matcherRuns.all
              (fun m => e.matcherElemImm m))) := by
  intro r
  generalize hE : checkGeneric e = out
  unfold checkGeneric at hE
  rw [hc] at hE
  dsimp only at hE
  repeat' (first | (split at hE) | (dsimp only at hE))
  all_goals subst hE
  all_goals intro hr hval
  all_goals
    first
    | (rw [fallbackCheck_no_matcher, List.all_nil, Bool.and_true]
       exact fallbackCheck_imm_conj e r hr hval)
    | (simp at hr; done)
    | (dsimp only at hr
       simp only [Except.ok.injEq] at hr
       subst hr
       first
       | (simp [NOT_VALID] at hval; done)
       | (dsimp only
          rw [hM]
          simp
          done)
       | simp)

/-- C8 amended witness: the conjunction equality at a concrete valid
fallback result with one valid immutable parameter. -/
theorem check_generic_immutable_conjunction_witness :
    (CheckResult.mk true true).immutable
      = (envImmWitness.objIsImmutable
        && ((checkGeneric envImmWitness).recChecks.all (fun c => c.immutable)
            && (checkGeneric envImmWitness).matcherRuns.all
              (fun m => envImmWitness.matcherElemImm m))) :=
  check_generic_immutable_conjunction envImmWitness rfl (fun _ => rfl)
    ⟨true, true⟩ rfl rfl

end Typechecked
